import Mathlib

/-!
Verification of the data pipeline in `ecodatascience_using_xarray_dask.ipynb`.

The notebook downloads ERA5 reanalysis files from a public S3 bucket (skipping
files already present locally), opens them as one combined dataset, slices a
geographic bounding box, converts units, reduces along time, and samples
nearest-neighbor time series at named city coordinates.

The embedding below models:
  * the remote object store and the local filesystem (cells 6, 8, 10);
  * key / file-name construction by template substitution (cell 10);
  * the combined dataset with coordinates and two data fields, over exact
    rationals in place of floats (cells 12-33);
  * label-based slicing, unit conversion, the time mean, persistence as
    materialization into a concrete table, longitude normalization, and
    nearest-neighbor point selection.
-/

/-! ## Acquisition: remote store, local filesystem, fetch steps (cells 6-10) -/

/-- The public bucket name (cell 6: `era5_bucket = 'era5-pds'`). -/
def era5_bucket : String := "era5-pds"

/-- Local filesystem plus a count of completed network transfers.
`files` maps a local file name to its content when the file exists. -/
structure FetchState where
  files : String → Option String
  transfers : Nat

/-- `client.download_file(bucket, key, file)`: unconditionally copy the remote
object at `key` in `bucket` to the local path `file`, overwriting anything
there, and perform one network transfer.  `remote bucket key` is the content
of the remote object (transfers never fail in the notebook's model: errors
propagate uncaught, out of scope here). -/
def download_file (remote : String → String → String) (bucket key file : String)
    (s : FetchState) : FetchState :=
  { files := fun f => if f = file then some (remote bucket key) else s.files f,
    transfers := s.transfers + 1 }

/-- The guarded fetch of cell 10:
`if not os.path.isfile(data_file): client.download_file(era5_bucket, s3_data_key, data_file)`. -/
def conditionalFetch (remote : String → String → String) (bucket key file : String)
    (s : FetchState) : FetchState :=
  if (s.files file).isSome then s else download_file remote bucket key file s

/-! ### Key and file-name construction (cell 10)

The notebook builds names with Python `str.format` on literal templates.  A
template is embedded as its token list (literal runs and `{field}` holes), and
`fmt` is format's substitution semantics on tokenized templates. -/

/-- One token of a format template: a literal run or a `\x7bname\x7d` hole. -/
inductive FmtTok where
  | lit (s : String)
  | field (name : String)

/-- Python `str.format` on a tokenized template: each hole is replaced by the
value the keyword-argument map `subs` assigns to its name. -/
def fmt (subs : String → String) : List FmtTok → String
  | [] => ""
  | FmtTok.lit s :: rest => s ++ fmt subs rest
  | FmtTok.field n :: rest => subs n ++ fmt subs rest

/-- Tokenized `s3_data_ptrn = '{year}/{month}/data/{var}.nc'` (cell 10). -/
def s3_data_ptrn : List FmtTok :=
  [FmtTok.field "year", FmtTok.lit "/", FmtTok.field "month", FmtTok.lit "/data/",
   FmtTok.field "var", FmtTok.lit ".nc"]

/-- Tokenized `data_file_ptrn = '{year}{month}_{var}.nc'` (cell 10). -/
def data_file_ptrn : List FmtTok :=
  [FmtTok.field "year", FmtTok.field "month", FmtTok.lit "_",
   FmtTok.field "var", FmtTok.lit ".nc"]

/-- The keyword arguments `format(year=year, month=month, var=var)`. -/
def fmtArgs (year month var : String) : String → String := fun n =>
  if n = "year" then year else if n = "month" then month else
  if n = "var" then var else ""

/-- `s3_data_key = s3_data_ptrn.format(year=year, month=month, var=var)`. -/
def s3_data_key (year month var : String) : String :=
  fmt (fmtArgs year month var) s3_data_ptrn

/-- `data_file = data_file_ptrn.format(year=year, month=month, var=var)`. -/
def data_file (year month var : String) : String :=
  fmt (fmtArgs year month var) data_file_ptrn

/-- `date = datetime.date(2017,1,1)`; `year = date.strftime('%Y')` (cell 8/10). -/
def yearStr : String := "2017"

/-- `month = date.strftime('%m')` for `datetime.date(2017,1,1)`. -/
def monthStr : String := "01"

/-- `metadata_file = 'main.nc'` (cell 8). -/
def metadata_file : String := "main.nc"

/-- `metadata_key = prefix + metadata_file` with
`prefix = date.strftime('%Y/%m/')` (cell 8). -/
def metadata_key : String := (yearStr ++ "/" ++ monthStr ++ "/") ++ metadata_file

/-- The unguarded metadata download of cell 8:
`client.download_file(era5_bucket, metadata_key, metadata_file)` with no
existence check. -/
def metadataFetch (remote : String → String → String) (s : FetchState) : FetchState :=
  download_file remote era5_bucket metadata_key metadata_file s

/-- `var2 = 'air_pressure_at_mean_sea_level'` (cell 10). -/
def var2 : String := "air_pressure_at_mean_sea_level"

/-- `var1 = 'air_temperature_at_2_metres'` (cell 10). -/
def var1 : String := "air_temperature_at_2_metres"

/-- `var_list = [var1, var2]` (cell 10). -/
def var_list : List String := [var1, var2]

/-- The whole fetch loop of cell 10, one guarded fetch per variable. -/
def fetchAll (remote : String → String → String) (s : FetchState) : FetchState :=
  var_list.foldl
    (fun st v =>
      conditionalFetch remote era5_bucket
        (s3_data_key yearStr monthStr v) (data_file yearStr monthStr v) st) s

theorem strAppend_assoc (a b c : String) : a ++ b ++ c = a ++ (b ++ c) := by
  apply String.ext
  simp [String.data_append, List.append_assoc]

theorem conditionalFetch_present {remote bucket key file s}
    (h : (s.files file).isSome = true) :
    conditionalFetch remote bucket key file s = s := by
  simp [conditionalFetch, h]

theorem download_file_files_self (remote : String → String → String)
    (bucket key file : String) (s : FetchState) :
    (download_file remote bucket key file s).files file = some (remote bucket key) := by
  simp [download_file]

/-- C1: the guarded fetch is a no-op on an existing file and a plain download
otherwise; running it twice is the same as running it once, and the pair of
runs performs exactly one network transfer when the file was absent (zero when
it was already present). -/
theorem fetch_conditional_idempotent (remote : String → String → String)
    (bucket key file : String) (s : FetchState) :
    (conditionalFetch remote bucket key file s =
      if (s.files file).isSome then s else download_file remote bucket key file s) ∧
    conditionalFetch remote bucket key file (conditionalFetch remote bucket key file s) =
      conditionalFetch remote bucket key file s ∧
    (conditionalFetch remote bucket key file
        (conditionalFetch remote bucket key file s)).transfers =
      s.transfers + (if (s.files file).isSome then 0 else 1) := by
  refine ⟨rfl, ?_, ?_⟩
  · by_cases h : (s.files file).isSome
    · rw [conditionalFetch_present h, conditionalFetch_present h]
    · have h1 : conditionalFetch remote bucket key file s =
          download_file remote bucket key file s := by
        simp [conditionalFetch, h]
      rw [h1]
      exact conditionalFetch_present (by simp [download_file_files_self])
  · by_cases h : (s.files file).isSome
    · simp [conditionalFetch, h]
    · have h1 : conditionalFetch remote bucket key file s =
          download_file remote bucket key file s := by
        simp [conditionalFetch, h]
      rw [h1, conditionalFetch_present (by simp [download_file_files_self])]
      simp [download_file, h]

/-- C8: for every year, month and variable name, the remote key built by the
fetch step is exactly `{year}/{month}/data/{variable}.nc` and the local file
name is exactly `{year}{month}_{variable}.nc`. -/
theorem fetch_key_and_filename (year month var : String) :
    s3_data_key year month var = year ++ "/" ++ month ++ "/data/" ++ var ++ ".nc" ∧
    data_file year month var = year ++ month ++ "_" ++ var ++ ".nc" := by
  constructor <;>
    simp [s3_data_key, data_file, s3_data_ptrn, data_file_ptrn, fmt, fmtArgs,
      strAppend_assoc]

/-- C9: the metadata fetch of `main.nc` is unconditional: on every run it
performs one network transfer and overwrites the local `main.nc` with the
remote object, with no existence check — unlike the per-variable fetch, which
is a no-op immediately afterwards because the file now exists. -/
theorem metadata_fetch_unconditional (remote : String → String → String)
    (s : FetchState) :
    (metadataFetch remote s).transfers = s.transfers + 1 ∧
    (metadataFetch remote s).files metadata_file = some (remote era5_bucket metadata_key) ∧
    conditionalFetch remote era5_bucket metadata_key metadata_file (metadataFetch remote s) =
      metadataFetch remote s := by
  refine ⟨rfl, download_file_files_self _ _ _ _ _, ?_⟩
  exact conditionalFetch_present (by simp [metadataFetch, download_file_files_self])

/-! ## The combined dataset (cells 12-17)

The combined dataset has coordinates `time0`, `lat`, `lon` and the two data
fields; values are exact rationals in place of the notebook's floats.  A field
is a function of the positional indices into the three coordinate lists. -/

structure Dataset where
  time0 : List ℚ
  lat : List ℚ
  lon : List ℚ
  air_temperature_at_2_metres : Nat → Nat → Nat → ℚ
  air_pressure_at_mean_sea_level : Nat → Nat → Nat → ℚ
  temp_units : String
  pressure_units : String

/-- Scalar pressure conversion of cell 17: `Pa / 100.0` gives hPa. -/
def pascalsToHPa (p : ℚ) : ℚ := p / 100.0

/-- Scalar temperature conversion of cell 17: `K - 273.15` gives deg C. -/
def kelvinToC (t : ℚ) : ℚ := t - 273.15

/-- Algebraic inverse of `pascalsToHPa`, from the spec's roundtrip property. -/
def hPaToPascals (p : ℚ) : ℚ := p * 100.0

/-- Algebraic inverse of `kelvinToC`, from the spec's roundtrip property. -/
def cToKelvin (t : ℚ) : ℚ := t + 273.15

/-- Cell 17: rewrite both fields elementwise on the single shared handle and
update the unit attributes (`hPa`, `C`). -/
def Dataset.convertUnits (ds : Dataset) : Dataset :=
  { ds with
    air_pressure_at_mean_sea_level := fun t i j =>
      pascalsToHPa (ds.air_pressure_at_mean_sea_level t i j),
    pressure_units := "hPa",
    air_temperature_at_2_metres := fun t i j =>
      kelvinToC (ds.air_temperature_at_2_metres t i j),
    temp_units := "C" }

/-! ## Location samples and longitude normalization (cell 32) -/

structure Loc where
  name : String
  lon : ℚ
  lat : ℚ

/-- The city coordinate list of cell 32, west-negative longitudes. -/
def locs : List Loc :=
  [⟨"santa_barbara", -119.6982, 34.4208⟩,
   ⟨"colorado_springs", -104.8214, 38.8339⟩,
   ⟨"honolulu", -157.835938, 21.290014⟩,
   ⟨"seattle", -122.3321, 47.6062⟩]

/-- The loop body of cell 32: `if l['lon'] < 0: l['lon'] = 360 + l['lon']`. -/
def normalizeLon (lon : ℚ) : ℚ := if lon < 0 then 360 + lon else lon

/-- The whole normalization loop of cell 32 over the location list. -/
def normalizeLocs (ls : List Loc) : List Loc :=
  ls.map fun l => { l with lon := normalizeLon l.lon }

/-- C2: normalization maps `lon < 0` to `360 + lon` and fixes `lon >= 0`;
in particular `-119.6982` becomes `240.3018` and `10` stays `10`. -/
theorem lon_normalization :
    (∀ lon : ℚ, lon < 0 → normalizeLon lon = 360 + lon) ∧
    (∀ lon : ℚ, 0 ≤ lon → normalizeLon lon = lon) ∧
    normalizeLon (-119.6982) = 240.3018 ∧
    normalizeLon 10 = 10 := by
  refine ⟨fun lon h => by simp [normalizeLon, h],
    fun lon h => by simp [normalizeLon, not_lt.mpr h],
    by norm_num [normalizeLon], by norm_num [normalizeLon]⟩

/-- Witness for C2 at concrete longitudes `-1` and `5`. -/
theorem lon_normalization_witness :
    ((-1 : ℚ) < 0 ∧ normalizeLon (-1) = 360 + (-1)) ∧
    ((0 : ℚ) ≤ 5 ∧ normalizeLon 5 = 5) :=
  ⟨⟨by norm_num, lon_normalization.1 (-1) (by norm_num)⟩,
   ⟨by norm_num, lon_normalization.2.1 5 (by norm_num)⟩⟩

/-- C3: the conversion is a pure linear map applied elementwise to every value
of each named field (`p / 100.0` hPa, `t - 273.15` deg C, with the unit
attributes rewritten), and composing each map with its algebraic inverse
returns the original value exactly. -/
theorem unit_conversion_linear (ds : Dataset) (t i j : Nat) (p c : ℚ) :
    ds.convertUnits.air_pressure_at_mean_sea_level t i j =
      pascalsToHPa (ds.air_pressure_at_mean_sea_level t i j) ∧
    ds.convertUnits.air_temperature_at_2_metres t i j =
      kelvinToC (ds.air_temperature_at_2_metres t i j) ∧
    pascalsToHPa p = p / 100.0 ∧
    kelvinToC c = c - 273.15 ∧
    hPaToPascals (pascalsToHPa p) = p ∧
    cToKelvin (kelvinToC c) = c ∧
    ds.convertUnits.pressure_units = "hPa" ∧
    ds.convertUnits.temp_units = "C" := by
  refine ⟨rfl, rfl, rfl, rfl, ?_, ?_, rfl, rfl⟩
  · rw [hPaToPascals, pascalsToHPa]
    field_simp
  · rw [cToKelvin, kelvinToC]
    ring

/-- C10: applying the conversion step twice is not the same as applying it
once: pressure ends up divided by 10000 instead of 100 and temperature reduced
by `2 * 273.15`, so the doubled run differs at every temperature value and at
every nonzero pressure value. -/
theorem unit_conversion_not_idempotent (ds : Dataset) (t i j : Nat) :
    ds.convertUnits.convertUnits.air_pressure_at_mean_sea_level t i j =
      ds.air_pressure_at_mean_sea_level t i j / 10000 ∧
    ds.convertUnits.convertUnits.air_temperature_at_2_metres t i j =
      ds.air_temperature_at_2_metres t i j - 2 * 273.15 ∧
    ds.convertUnits.convertUnits.air_temperature_at_2_metres t i j ≠
      ds.convertUnits.air_temperature_at_2_metres t i j ∧
    (ds.air_pressure_at_mean_sea_level t i j ≠ 0 →
      ds.convertUnits.convertUnits.air_pressure_at_mean_sea_level t i j ≠
        ds.convertUnits.air_pressure_at_mean_sea_level t i j) := by
  refine ⟨?_, ?_, ?_, ?_⟩ <;>
    simp only [Dataset.convertUnits, pascalsToHPa, kelvinToC]
  · rw [div_div]; norm_num
  · ring
  · intro h; linarith
  · intro hp h
    apply hp
    field_simp at h
    rcases h with h | h
    · norm_num at h
    · exact h

/-- A concrete dataset used to witness the hypotheses of the theorems:
two time steps on a 3 x 3 grid with descending latitudes and ascending
longitudes, in the notebook's bounding box. -/
def sampleDs : Dataset where
  time0 := [0, 1]
  lat := [50, 40, 30]
  lon := [220, 240, 255]
  air_temperature_at_2_metres := fun t i j => (t : ℚ) + i + j + 280
  air_pressure_at_mean_sea_level := fun _ _ _ => 101325
  temp_units := "K"
  pressure_units := "Pa"

/-- Witness for C10 at a concrete nonzero pressure value of `sampleDs`. -/
theorem unit_conversion_not_idempotent_witness :
    sampleDs.air_pressure_at_mean_sea_level 0 0 0 ≠ 0 ∧
    sampleDs.convertUnits.convertUnits.air_pressure_at_mean_sea_level 0 0 0 ≠
      sampleDs.convertUnits.air_pressure_at_mean_sea_level 0 0 0 :=
  ⟨by norm_num [sampleDs],
   (unit_conversion_not_idempotent sampleDs 0 0 0).2.2.2 (by norm_num [sampleDs])⟩

/-! ## Label-based bounding-box selection (cell 15)

`ds.sel(lat=slice(50,30), lon=slice(360-140,360-105))` slices each coordinate
by label.  On a monotonic index the backing library keeps exactly the labels
lying between the two bounds taken in the index's own order; bounds ordered
against the index select nothing (and never raise). -/

def isAscending : List ℚ → Bool
  | [] => true
  | [_] => true
  | a :: b :: rest => decide (a ≤ b) && isAscending (b :: rest)

def isDescending : List ℚ → Bool
  | [] => true
  | [_] => true
  | a :: b :: rest => decide (b ≤ a) && isDescending (b :: rest)

/-- Positions kept by `slice(a, b)` on a monotonic coordinate list: on an
ascending index the labels in `[a, b]`, on a descending index those in
`[b, a]`. -/
def sliceIdx (a b : ℚ) (cs : List ℚ) : List Nat :=
  if isAscending cs then
    (List.range cs.length).filter fun i => decide (a ≤ cs.getD i 0) && decide (cs.getD i 0 ≤ b)
  else
    (List.range cs.length).filter fun i => decide (b ≤ cs.getD i 0) && decide (cs.getD i 0 ≤ a)

/-- Cell 15's `ds.sel(lat=slice(latA,latB), lon=slice(lonA,lonB))`: restrict
both spatial coordinates and reindex the fields accordingly. -/
def Dataset.sel (ds : Dataset) (latA latB lonA lonB : ℚ) : Dataset :=
  let li := sliceIdx latA latB ds.lat
  let gi := sliceIdx lonA lonB ds.lon
  { ds with
    lat := li.map fun i => ds.lat.getD i 0,
    lon := gi.map fun j => ds.lon.getD j 0,
    air_temperature_at_2_metres := fun t i j =>
      ds.air_temperature_at_2_metres t (li.getD i 0) (gi.getD j 0),
    air_pressure_at_mean_sea_level := fun t i j =>
      ds.air_pressure_at_mean_sea_level t (li.getD i 0) (gi.getD j 0) }

/-- The concrete subset of cell 15:
`ds.sel(lat=slice(50,30), lon=slice(360-140,360-105))`. -/
def spatialSubset (ds : Dataset) : Dataset :=
  ds.sel 50 30 (360 - 140) (360 - 105)

/-- A dataset is empty when one of its dimensions holds no coordinate. -/
def Dataset.isEmpty (ds : Dataset) : Bool :=
  ds.time0.isEmpty || ds.lat.isEmpty || ds.lon.isEmpty

theorem sliceIdx_desc_mem {a b : ℚ} {cs : List ℚ} (h : isAscending cs = false)
    {x : ℚ} (hx : x ∈ (sliceIdx a b cs).map fun i => cs.getD i 0) :
    b ≤ x ∧ x ≤ a := by
  rcases List.mem_map.mp hx with ⟨i, hi, rfl⟩
  rw [sliceIdx, h] at hi
  simp only [Bool.false_eq_true, if_false, List.mem_filter] at hi
  exact ⟨of_decide_eq_true (Bool.and_elim_left hi.2),
    of_decide_eq_true (Bool.and_elim_right hi.2)⟩

theorem sliceIdx_asc_mem {a b : ℚ} {cs : List ℚ} (h : isAscending cs = true)
    {x : ℚ} (hx : x ∈ (sliceIdx a b cs).map fun i => cs.getD i 0) :
    a ≤ x ∧ x ≤ b := by
  rcases List.mem_map.mp hx with ⟨i, hi, rfl⟩
  rw [sliceIdx, h] at hi
  simp only [if_true, List.mem_filter] at hi
  exact ⟨of_decide_eq_true (Bool.and_elim_left hi.2),
    of_decide_eq_true (Bool.and_elim_right hi.2)⟩

theorem sliceIdx_desc_nonempty {a b : ℚ} {cs : List ℚ} (h : isAscending cs = false)
    {c : ℚ} (hc : c ∈ cs) (h1 : b ≤ c) (h2 : c ≤ a) :
    sliceIdx a b cs ≠ [] := by
  rcases List.getElem_of_mem hc with ⟨i, hilt, hieq⟩
  have hgd : cs.getD i 0 = c := by rw [List.getD_eq_getElem _ _ hilt, hieq]
  apply List.ne_nil_of_mem (a := i)
  rw [sliceIdx, h]
  simp only [Bool.false_eq_true, if_false, List.mem_filter, List.mem_range]
  exact ⟨hilt, by rw [hgd]; simp [h1, h2]⟩

theorem sliceIdx_asc_nonempty {a b : ℚ} {cs : List ℚ} (h : isAscending cs = true)
    {c : ℚ} (hc : c ∈ cs) (h1 : a ≤ c) (h2 : c ≤ b) :
    sliceIdx a b cs ≠ [] := by
  rcases List.getElem_of_mem hc with ⟨i, hilt, hieq⟩
  have hgd : cs.getD i 0 = c := by rw [List.getD_eq_getElem _ _ hilt, hieq]
  apply List.ne_nil_of_mem (a := i)
  rw [sliceIdx, h]
  simp only [if_true, List.mem_filter, List.mem_range]
  exact ⟨hilt, by rw [hgd]; simp [h1, h2]⟩

/-- C4: on a grid with descending latitudes and ascending longitudes holding a
point inside latitude `[30, 50]` and a point inside longitude `[220, 255]`,
the cell-15 selection with bounds `(50, 30)` and `(220, 255)` is non-empty and
every coordinate of the result lies within the requested bounds. -/
theorem bounding_box_selection (ds : Dataset)
    (hlatd : isDescending ds.lat = true) (hlata : isAscending ds.lat = false)
    (hlona : isAscending ds.lon = true)
    (c : ℚ) (hc : c ∈ ds.lat) (hc1 : 30 ≤ c) (hc2 : c ≤ 50)
    (d : ℚ) (hd : d ∈ ds.lon) (hd1 : 220 ≤ d) (hd2 : d ≤ 255) :
    (spatialSubset ds).lat ≠ [] ∧ (spatialSubset ds).lon ≠ [] ∧
    (∀ x ∈ (spatialSubset ds).lat, 30 ≤ x ∧ x ≤ 50) ∧
    (∀ x ∈ (spatialSubset ds).lon, 220 ≤ x ∧ x ≤ 255) := by
  refine ⟨?_, ?_, ?_, ?_⟩
  · have h := sliceIdx_desc_nonempty (a := 50) (b := 30) hlata hc hc1 hc2
    simpa [spatialSubset, Dataset.sel] using h
  · have h := sliceIdx_asc_nonempty (a := (360 - 140 : ℚ)) (b := (360 - 105 : ℚ))
      hlona hd (by norm_num [hd1]) (by norm_num [hd2])
    simpa [spatialSubset, Dataset.sel] using h
  · intro x hx
    have h := sliceIdx_desc_mem (a := 50) (b := 30) hlata
      (x := x) (by simpa [spatialSubset, Dataset.sel] using hx)
    exact ⟨h.1, h.2⟩
  · intro x hx
    have h := sliceIdx_asc_mem (a := (360 - 140 : ℚ)) (b := (360 - 105 : ℚ)) hlona
      (x := x) (by simpa [spatialSubset, Dataset.sel] using hx)
    constructor <;> [linarith [h.1]; linarith [h.2]]

/-- C5: slicing with bounds ordered against the grid's own coordinate order
(ascending latitude bounds `a < b` against a non-ascending latitude, and
descending longitude bounds `b2 < a2` against an ascending longitude) selects
no coordinates at all: the result is an empty dataset, and `sel` is a total
function, so no error is raised. -/
theorem opposite_bounds_empty (ds : Dataset) (a b a2 b2 : ℚ)
    (hlat : isAscending ds.lat = false) (hab : a < b)
    (hlon : isAscending ds.lon = true) (hab2 : b2 < a2) :
    (ds.sel a b a2 b2).lat = [] ∧ (ds.sel a b a2 b2).lon = [] ∧
    (ds.sel a b a2 b2).isEmpty = true := by
  have hlat' : sliceIdx a b ds.lat = [] := by
    rw [sliceIdx, hlat]
    simp only [Bool.false_eq_true, if_false]
    apply List.filter_eq_nil_iff.mpr
    intro i _
    simp only [Bool.and_eq_true, decide_eq_true_eq, not_and]
    intro h1 h2
    linarith
  have hlon' : sliceIdx a2 b2 ds.lon = [] := by
    rw [sliceIdx, hlon]
    simp only [if_true]
    apply List.filter_eq_nil_iff.mpr
    intro i _
    simp only [Bool.and_eq_true, decide_eq_true_eq, not_and]
    intro h1 h2
    linarith
  refine ⟨?_, ?_, ?_⟩
  · simp [Dataset.sel, hlat']
  · simp [Dataset.sel, hlon']
  · simp [Dataset.sel, Dataset.isEmpty, hlat', hlon']

/-! ## Nearest-neighbor point sampling (cell 33)

`air_temp_ds.sel(lon=lon, lat=lat, method='nearest')` picks, independently on
each spatial coordinate, the grid label closest to the request, and returns
the temperature time series stored at that cell. -/

/-- Position of the coordinate label closest to `x` (first position wins a
tie), the per-axis lookup behind `method='nearest'`. -/
def nearestIdx (x : ℚ) : List ℚ → Nat
  | [] => 0
  | [_] => 0
  | c :: c2 :: rest =>
    let j := nearestIdx x (c2 :: rest)
    if |c - x| ≤ |(c2 :: rest).getD j 0 - x| then 0 else j + 1

/-- The result of a point selection: the matched grid coordinates and the
temperature time series of that single cell. -/
structure PointSeries where
  lat : ℚ
  lon : ℚ
  series : Nat → ℚ

/-- Cell 33's `air_temp_ds.sel(lon=lon, lat=lat, method='nearest')`. -/
def Dataset.selNearest (ds : Dataset) (lon lat : ℚ) : PointSeries :=
  let i := nearestIdx lat ds.lat
  let j := nearestIdx lon ds.lon
  { lat := ds.lat.getD i 0,
    lon := ds.lon.getD j 0,
    series := fun t => ds.air_temperature_at_2_metres t i j }

theorem nearestIdx_lt_length (x : ℚ) (cs : List ℚ) (h : cs ≠ []) :
    nearestIdx x cs < cs.length := by
  induction cs with
  | nil => exact absurd rfl h
  | cons c rest ih =>
    cases rest with
    | nil => simp [nearestIdx]
    | cons c2 rest2 =>
      simp only [nearestIdx]
      split
      · simp
      · have := ih (by simp)
        simpa [Nat.succ_lt_succ_iff] using this

theorem nearestIdx_min (x : ℚ) (cs : List ℚ) :
    ∀ c ∈ cs, |cs.getD (nearestIdx x cs) 0 - x| ≤ |c - x| := by
  induction cs with
  | nil => intro c hc; cases hc
  | cons a rest ih =>
    cases rest with
    | nil =>
      intro c hc
      rcases List.mem_singleton.mp hc with rfl
      simp [nearestIdx]
    | cons a2 rest2 =>
      intro c hc
      by_cases hcond : |a - x| ≤ |(a2 :: rest2).getD (nearestIdx x (a2 :: rest2)) 0 - x|
      · have hn : nearestIdx x (a :: a2 :: rest2) = 0 := by
          simp only [nearestIdx]
          rw [if_pos hcond]
        rw [hn, List.getD_cons_zero]
        rcases List.mem_cons.mp hc with rfl | hc2
        · exact le_refl _
        · exact le_trans hcond (ih c hc2)
      · have hn : nearestIdx x (a :: a2 :: rest2) =
            nearestIdx x (a2 :: rest2) + 1 := by
          simp only [nearestIdx]
          rw [if_neg hcond]
        rw [hn, List.getD_cons_succ]
        rcases List.mem_cons.mp hc with rfl | hc2
        · exact le_of_lt (lt_of_not_le hcond)
        · exact ih c hc2

theorem nearestIdx_exact (x : ℚ) (cs : List ℚ) (hx : x ∈ cs) :
    cs.getD (nearestIdx x cs) 0 = x := by
  have h1 := nearestIdx_min x cs x hx
  have h2 : |cs.getD (nearestIdx x cs) 0 - x| ≤ 0 := by simpa using h1
  have h3 : |cs.getD (nearestIdx x cs) 0 - x| = 0 :=
    le_antisymm h2 (abs_nonneg _)
  rw [abs_eq_zero, sub_eq_zero] at h3
  exact h3

/-- C6: point sampling picks a real grid cell whose coordinates minimize the
distance to the request on each axis, and returns exactly the stored
temperature series of that cell; when the requested coordinates already lie on
the grid, the matched coordinates are exactly the requested ones (no
interpolation). -/
theorem nearest_neighbor_exact (ds : Dataset) (lon lat : ℚ)
    (hlat : ds.lat ≠ []) (hlon : ds.lon ≠ []) :
    (∀ c ∈ ds.lat, |(ds.selNearest lon lat).lat - lat| ≤ |c - lat|) ∧
    (∀ c ∈ ds.lon, |(ds.selNearest lon lat).lon - lon| ≤ |c - lon|) ∧
    (lat ∈ ds.lat → (ds.selNearest lon lat).lat = lat) ∧
    (lon ∈ ds.lon → (ds.selNearest lon lat).lon = lon) ∧
    (∃ i j, i < ds.lat.length ∧ j < ds.lon.length ∧
      ds.lat.getD i 0 = (ds.selNearest lon lat).lat ∧
      ds.lon.getD j 0 = (ds.selNearest lon lat).lon ∧
      ∀ t, (ds.selNearest lon lat).series t =
        ds.air_temperature_at_2_metres t i j) := by
  refine ⟨fun c hc => nearestIdx_min lat ds.lat c hc,
    fun c hc => nearestIdx_min lon ds.lon c hc,
    fun h => nearestIdx_exact lat ds.lat h,
    fun h => nearestIdx_exact lon ds.lon h,
    nearestIdx lat ds.lat, nearestIdx lon ds.lon,
    nearestIdx_lt_length lat ds.lat hlat, nearestIdx_lt_length lon ds.lon hlon,
    rfl, rfl, fun _ => rfl⟩

/-! ## Time reduction and persistence (cells 19, 25, 27)

`.mean(dim='time0')` averages a field over the time coordinate.  `.persist()`
materializes the lazily-defined field values into concrete distributed memory;
downstream reductions then read the materialized table instead of recomputing
from disk. -/

/-- Cell 19/27: the mean of the temperature field along `time0` at a fixed
spatial cell. -/
def Dataset.meanTime (ds : Dataset) (i j : Nat) : ℚ :=
  (((List.range ds.time0.length).map
      fun t => ds.air_temperature_at_2_metres t i j).sum) / (ds.time0.length : ℚ)

/-- Cell 25's `.persist()`: evaluate every temperature value of the grid into
a concrete in-memory table and answer later reads from that table. -/
def Dataset.persist (ds : Dataset) : Dataset :=
  let table : List (List (List ℚ)) :=
    (List.range ds.time0.length).map fun t =>
      (List.range ds.lat.length).map fun i =>
        (List.range ds.lon.length).map fun j =>
          ds.air_temperature_at_2_metres t i j
  { ds with air_temperature_at_2_metres := fun t i j =>
      ((table.getD t []).getD i []).getD j 0 }

theorem persist_apply (ds : Dataset) (t i j : Nat)
    (ht : t < ds.time0.length) (hi : i < ds.lat.length) (hj : j < ds.lon.length) :
    ds.persist.air_temperature_at_2_metres t i j =
      ds.air_temperature_at_2_metres t i j := by
  simp [Dataset.persist, List.getD_eq_getElem?_getD, List.getElem?_map,
    List.getElem?_range, ht, hi, hj]

/-- C7: persisting changes no values: the time mean read through the persisted
handle equals the time mean of the unpersisted dataset at every grid cell. -/
theorem persist_preserves_mean (ds : Dataset) (i j : Nat)
    (hi : i < ds.lat.length) (hj : j < ds.lon.length) :
    ds.persist.meanTime i j = ds.meanTime i j := by
  have htime : ds.persist.time0 = ds.time0 := rfl
  rw [Dataset.meanTime, Dataset.meanTime, htime]
  congr 2
  apply List.map_congr_left
  intro t ht
  exact persist_apply ds t i j (List.mem_range.mp ht) hi hj

/-! ## Concrete witnesses -/

/-- Witness for C4: `sampleDs` with its descending latitudes and ascending
longitudes, the grid point at latitude 40 and longitude 240 inside the box. -/
theorem bounding_box_selection_witness :
    isDescending sampleDs.lat = true ∧ isAscending sampleDs.lat = false ∧
    isAscending sampleDs.lon = true ∧
    ((40 : ℚ) ∈ sampleDs.lat ∧ (30 : ℚ) ≤ 40 ∧ (40 : ℚ) ≤ 50) ∧
    ((240 : ℚ) ∈ sampleDs.lon ∧ (220 : ℚ) ≤ 240 ∧ (240 : ℚ) ≤ 255) ∧
    ((spatialSubset sampleDs).lat ≠ [] ∧ (spatialSubset sampleDs).lon ≠ [] ∧
      (∀ x ∈ (spatialSubset sampleDs).lat, 30 ≤ x ∧ x ≤ 50) ∧
      (∀ x ∈ (spatialSubset sampleDs).lon, 220 ≤ x ∧ x ≤ 255)) := by
  have h1 : isDescending sampleDs.lat = true := by decide
  have h2 : isAscending sampleDs.lat = false := by decide
  have h3 : isAscending sampleDs.lon = true := by decide
  have hm : (40 : ℚ) ∈ sampleDs.lat := by simp [sampleDs]
  have hm2 : (240 : ℚ) ∈ sampleDs.lon := by simp [sampleDs]
  exact ⟨h1, h2, h3, ⟨hm, by norm_num, by norm_num⟩, ⟨hm2, by norm_num, by norm_num⟩,
    bounding_box_selection sampleDs h1 h2 h3 40 hm (by norm_num) (by norm_num)
      240 hm2 (by norm_num) (by norm_num)⟩

/-- Witness for C5: selecting `sampleDs` with ascending latitude bounds
`(30, 50)` and descending longitude bounds `(255, 220)` yields an empty
dataset. -/
theorem opposite_bounds_empty_witness :
    isAscending sampleDs.lat = false ∧ (30 : ℚ) < 50 ∧
    isAscending sampleDs.lon = true ∧ (220 : ℚ) < 255 ∧
    ((sampleDs.sel 30 50 255 220).lat = [] ∧
      (sampleDs.sel 30 50 255 220).lon = [] ∧
      (sampleDs.sel 30 50 255 220).isEmpty = true) := by
  have h1 : isAscending sampleDs.lat = false := by decide
  have h2 : isAscending sampleDs.lon = true := by decide
  exact ⟨h1, by norm_num, h2, by norm_num,
    opposite_bounds_empty sampleDs 30 50 255 220 h1 (by norm_num) h2 (by norm_num)⟩

/-- Witness for C6: sampling `sampleDs` at the grid-aligned point
`(lon, lat) = (240, 40)` matches exactly that grid point. -/
theorem nearest_neighbor_exact_witness :
    sampleDs.lat ≠ [] ∧ sampleDs.lon ≠ [] ∧
    (40 : ℚ) ∈ sampleDs.lat ∧ (240 : ℚ) ∈ sampleDs.lon ∧
    (sampleDs.selNearest 240 40).lat = 40 ∧
    (sampleDs.selNearest 240 40).lon = 240 := by
  have h1 : sampleDs.lat ≠ [] := by simp [sampleDs]
  have h2 : sampleDs.lon ≠ [] := by simp [sampleDs]
  have hm : (40 : ℚ) ∈ sampleDs.lat := by simp [sampleDs]
  have hm2 : (240 : ℚ) ∈ sampleDs.lon := by simp [sampleDs]
  have h := nearest_neighbor_exact sampleDs 240 40 h1 h2
  exact ⟨h1, h2, hm, hm2, h.2.2.1 hm, h.2.2.2.1 hm2⟩

/-- Witness for C7: the persisted and unpersisted time means agree at the
grid cell `(0, 0)` of `sampleDs`. -/
theorem persist_preserves_mean_witness :
    0 < sampleDs.lat.length ∧ 0 < sampleDs.lon.length ∧
    sampleDs.persist.meanTime 0 0 = sampleDs.meanTime 0 0 := by
  have h1 : 0 < sampleDs.lat.length := by simp [sampleDs]
  have h2 : 0 < sampleDs.lon.length := by simp [sampleDs]
  exact ⟨h1, h2, persist_preserves_mean sampleDs 0 0 h1 h2⟩
